import Mathlib

/-!
Verification of the cqrs-es2-store SQLite `QueryStore`
(`src/impls/sql/sqlite_store/query_store.rs`) and the test
`CustomDispatcher` (`src/repository/test/dispatchers.rs`).

The store is embedded shallowly: the SQLite connection is a `DB` value
(the `queries` table as a list of rows, `none` when the table has not
been created), and each Rust method becomes a state-passing Lean
function returning the new `DB` together with its `Result`.
Versions (Rust `i64`) are `Int`; payload serialization
(`serde_json::to_string` / `from_str`) is a fallible function pair
carried by a `QuerySpec`, together with the `A::aggregate_type()` and
`Q::query_type()` discriminators.
-/

/-- A Rust `QueryContext<C, E, Q>`: aggregate id, version (i64), payload. -/
structure QueryContext (P : Type) where
  aggregate_id : String
  version : Int
  payload : P
deriving DecidableEq, Repr

/-- One row of the `queries` table
(aggregate_type, aggregate_id, query_type, version, payload). -/
structure Row where
  aggregate_type : String
  aggregate_id : String
  query_type : String
  version : Int
  payload : String
deriving DecidableEq, Repr

/-- The `queries` table: a list of rows, in insertion order. -/
abbrev Table := List Row

/-- The SQLite connection state: `none` while the `queries` table does
not yet exist, `some t` once created with rows `t`. -/
structure DB where
  queries : Option Table
deriving DecidableEq, Repr

/-- The rows currently in the `queries` table (empty when absent). -/
def DB.rows (db : DB) : Table := db.queries.getD []

/-- The parameters the generic `QueryStore<C, E, A, Q>` closes over:
`serde_json` encoding and decoding of the query payload, the payload
default (`Default::default()`), and the two type discriminators. -/
structure QuerySpec (P : Type) where
  ser : P → Option String
  deser : String → Option P
  dflt : P
  aggregate_type : String
  query_type : String

/-- SQLite message for a primary-key violation on `queries`. -/
def uniqueErr : String :=
  "UNIQUE constraint failed: queries.aggregate_type, queries.aggregate_id, queries.query_type"

/-- SQLite message for a violation of `CHECK (version >= 0)`. -/
def checkErr : String := "CHECK constraint failed: version >= 0"

/-- Does a row match the WHERE key
`aggregate_type = ? AND aggregate_id = ? AND query_type = ?`? -/
def matchesKey (at_ aid qt : String) (r : Row) : Bool :=
  r.aggregate_type == at_ && r.aggregate_id == aid && r.query_type == qt

/-- The success path of `create_query_table` (lines 68-89), running
`CREATE TABLE IF NOT EXISTS queries ...`: creates an empty table when
absent, leaves an existing table untouched.  Its failure branch (a
driver error from `conn.execute`, wrapped at lines 74-83) is modelled
by `create_query_table_r`, and `save_query_ddl` / `load_query_ddl`
thread that result through the `?` at lines 104 and 166. -/
def create_query_table (db : DB) : DB :=
  match db.queries with
  | none => ⟨some []⟩
  | some t => ⟨some t⟩

/-- Modelled from the spec: the `INSERT_QUERY` statement comes from the
`mysql_constants` module, which is not under `src/`; spec section 6 maps
version-1 saves to `INSERT` into `queries` with
`PRIMARY KEY (aggregate_type, aggregate_id, query_type)` and
`CHECK (version >= 0)`.  SQLite rejects the insert when a row with the
same primary key exists or the CHECK fails; otherwise the row is
appended. -/
def insertQuery (t : Table) (version : Int) (payload at_ aid qt : String) :
    Except String Table :=
  if t.any (matchesKey at_ aid qt) then
    .error uniqueErr
  else if version < 0 then
    .error checkErr
  else
    .ok (t ++ [⟨at_, aid, qt, version, payload⟩])

/-- Modelled from the spec: the `UPDATE_QUERY` statement comes from the
`mysql_constants` module, which is not under `src/`; spec section 6 maps
non-1 versions to
`UPDATE queries SET version = ?, payload = ? WHERE aggregate_type = ? AND aggregate_id = ? AND query_type = ?`.
SQL `UPDATE` rewrites every matching row and succeeds even when zero
rows match; it fails only when the CHECK would be violated on a matched
row. -/
def updateQuery (t : Table) (version : Int) (payload at_ aid qt : String) :
    Except String Table :=
  if version < 0 && t.any (matchesKey at_ aid qt) then
    .error checkErr
  else
    .ok (t.map fun r =>
      if matchesKey at_ aid qt r then
        { r with version := version, payload := payload }
      else r)

/-- Modelled from the spec: the `SELECT_QUERY` statement comes from the
`mysql_constants` module, which is not under `src/`; spec section 6 maps
loads to `SELECT version, payload WHERE aggregate_type = ? AND
aggregate_id = ? AND query_type = ?`.  Rows come back in table order. -/
def selectQuery (t : Table) (at_ aid qt : String) : List (Int × String) :=
  (t.filter (matchesKey at_ aid qt)).map fun r => (r.version, r.payload)

/-- The statement chosen by `save_query`:
`match context.version { 1 => INSERT_QUERY, _ => UPDATE_QUERY }`. -/
inductive Stmt
  | insertStmt
  | updateStmt
deriving DecidableEq, Repr

/-- The `match context.version` in `save_query` (line 116). -/
def save_query_stmt (version : Int) : Stmt :=
  if version = 1 then .insertStmt else .updateStmt

/-- Running the chosen statement on the table with the bound parameters
`(version, payload, aggregate_type, aggregate_id, query_type)`. -/
def execStmt (s : Stmt) (t : Table) (version : Int)
    (payload at_ aid qt : String) : Except String Table :=
  match s with
  | .insertStmt => insertQuery t version payload at_ aid qt
  | .updateStmt => updateQuery t version payload at_ aid qt

/-- Error message of the serialization failure branch of `save_query`
(lines 121-133). -/
def serErrMsg (qt aid cause : String) : String :=
  "unable to serialize the payload of query '" ++ qt ++
    "' with aggregate id '" ++ aid ++ "', error: " ++ cause

/-- Error message of the statement failure branch of `save_query`
(lines 146-155). -/
def execErrMsg (aid cause : String) : String :=
  "unable to insert/update query for aggregate id '" ++ aid ++
    "' with error: " ++ cause

/-- Error message of the deserialization failure branch of `load_query`
(lines 230-242). -/
def deserErrMsg (qt aid cause : String) : String :=
  "bad payload found in queries table for query '" ++ qt ++
    "' with aggregate id '" ++ aid ++ "', error: " ++ cause

/-- `IQueryStore::save_query` for the SQLite store (lines 100-159):
ensure the schema, pick INSERT for version 1 and UPDATE otherwise,
serialize the payload, execute.  Returns the new connection state and
the Rust `Result<(), Error>`. -/
def save_query {P : Type} (S : QuerySpec P) (db : DB)
    (context : QueryContext P) : DB × Except String Unit :=
  let db1 := create_query_table db
  let sql := save_query_stmt context.version
  match S.ser context.payload with
  | none =>
    (db1, .error (serErrMsg S.query_type context.aggregate_id "serde"))
  | some payload =>
    match execStmt sql db1.rows context.version payload
        S.aggregate_type context.aggregate_id S.query_type with
    | .error e =>
      (db1, .error (execErrMsg context.aggregate_id e))
    | .ok t2 => (⟨some t2⟩, .ok ())

/-- Outcome of `load_query`: the Rust `Result` plus the extra
possibility of a panic from the `unwrap()` on a row result. -/
inductive LoadOutcome (A : Type)
  | ok (a : A)
  | err (msg : String)
  | panicked
deriving DecidableEq, Repr

/-- The row-collection loop of `load_query` (lines 208-212):
`for x in res { rows.push(x.unwrap()); }` — the first `Err` row result
panics, otherwise all values are collected in order. -/
def collect_rows {A : Type} (res : List (Except String A)) :
    Option (List A) :=
  match res with
  | [] => some []
  | .ok x :: rest => (collect_rows rest).map (x :: ·)
  | .error _ :: _ => none

/-- The tail of `load_query` after `query_map` has produced the per-row
results `res` (lines 208-250): unwrap each row, synthesize the default
context when no row matched, otherwise deserialize `rows[0]`. -/
def load_query_from_rows {P : Type} (S : QuerySpec P) (aggregate_id : String)
    (res : List (Except String (Int × String))) : LoadOutcome (QueryContext P) :=
  match collect_rows res with
  | none => .panicked
  | some rows =>
    match rows with
    | [] => .ok ⟨aggregate_id, 0, S.dflt⟩
    | row :: _ =>
      match S.deser row.2 with
      | none => .err (deserErrMsg S.query_type aggregate_id "serde")
      | some payload => .ok ⟨aggregate_id, row.1, payload⟩

/-- `IQueryStore::load_query` for the SQLite store (lines 162-250):
ensure the schema, SELECT the matching rows, then `load_query_from_rows`. -/
def load_query {P : Type} (S : QuerySpec P) (db : DB)
    (aggregate_id : String) : DB × LoadOutcome (QueryContext P) :=
  let db1 := create_query_table db
  let res := (selectQuery db1.rows S.aggregate_type aggregate_id
      S.query_type).map Except.ok
  (db1, load_query_from_rows S aggregate_id res)

/-- Coerces the `Result` of `save_query` into the outcome type used for
dispatching (a save cannot panic). -/
def liftResult : DB × Except String Unit → DB × LoadOutcome Unit
  | (d, .ok _) => (d, .ok ())
  | (d, .error e) => (d, .err e)

/-- Modelled from the spec: `IQueryStore::dispatch_events` is a provided
method of the `IQueryStore` trait in the repository module, which is not
under `src/`; per spec section 4.2 it loads the current query context,
folds the batch of events into the payload via the domain projection
`upd`, increments the version, and saves. -/
def dispatch_events {P E : Type} (S : QuerySpec P) (upd : P → E → P)
    (db : DB) (aggregate_id : String) (events : List E) :
    DB × LoadOutcome Unit :=
  match load_query S db aggregate_id with
  | (db1, .ok context) =>
    let payload := events.foldl upd context.payload
    liftResult (save_query S db1
      ⟨context.aggregate_id, context.version + 1, payload⟩)
  | (db1, .err e) => (db1, .err e)
  | (db1, .panicked) => (db1, .panicked)

/-- `IEventDispatcher::dispatch` for the SQLite `QueryStore`
(lines 260-266): delegates to `dispatch_events`. -/
def dispatch {P E : Type} (S : QuerySpec P) (upd : P → E → P)
    (db : DB) (aggregate_id : String) (events : List E) :
    DB × LoadOutcome Unit :=
  dispatch_events S upd db aggregate_id events

/-- `CustomDispatcher::dispatch` from `src/repository/test/dispatchers.rs`
(lines 33-44): pushes each event of the batch, in order, onto the shared
event list, then returns `Ok(())`.  `state` is the contents of the
`Arc<RwLock<Vec<EventContext<..>>>>`. -/
def customDispatch {E : Type} (state : List E) (events : List E) :
    List E × Except String Unit :=
  (events.foldl (fun acc e => acc ++ [e]) state, .ok ())

/-- A concrete query specification over `String` payloads whose
serialization round-trips, used to exercise the store. -/
def S0 : QuerySpec String :=
  { ser := fun p => some p, deser := fun s => some s, dflt := "",
    aggregate_type := "myAgg", query_type := "myQuery" }

/-- A query specification whose payload serialization always fails. -/
def Sfail : QuerySpec String :=
  { ser := fun _ => none, deser := fun s => some s, dflt := "",
    aggregate_type := "myAgg", query_type := "myQuery" }

/-- Packaging of the executed statement's result in `save_query`
(lines 135-158): wrap a failure, commit the new table on success. -/
def finishSave (db1 : DB) (aid : String) :
    Except String Table → DB × Except String Unit
  | .error e => (db1, .error (execErrMsg aid e))
  | .ok t2 => (⟨some t2⟩, .ok ())

/-! ### Substring containment, used to state the error-wrapping claims -/

/-- Is `needle` a prefix of `hay` (over characters)? -/
def isPreOf : List Char → List Char → Bool
  | [], _ => true
  | _ :: _, [] => false
  | a :: as, b :: bs => a == b && isPreOf as bs

/-- Is `needle` a contiguous sublist of `hay`? -/
def isSubOf (needle hay : List Char) : Bool :=
  match hay with
  | [] => needle.isEmpty
  | c :: t => isPreOf needle (c :: t) || isSubOf needle t

/-- Does the string `hay` contain the string `needle`? -/
def strIn (needle hay : String) : Bool :=
  isSubOf needle.data hay.data

theorem isPreOf_self_append (l r : List Char) : isPreOf l (l ++ r) = true := by
  induction l with
  | nil => rfl
  | cons a as ih => simp [isPreOf, ih]

theorem isSubOf_nil_left (h : List Char) : isSubOf [] h = true := by
  cases h with
  | nil => rfl
  | cons c t => simp [isSubOf, isPreOf]

theorem isSubOf_append (n a b : List Char) : isSubOf n (a ++ n ++ b) = true := by
  induction a with
  | nil =>
    cases n with
    | nil => simpa using isSubOf_nil_left b
    | cons c m =>
      simp only [List.nil_append, List.cons_append, isSubOf]
      have : isPreOf (c :: m) (c :: (m ++ b)) = true := by
        simpa using isPreOf_self_append (c :: m) b
      simp [this]
  | cons c a' ih =>
    simp only [List.cons_append, isSubOf, Bool.or_eq_true]
    right
    simpa [List.append_assoc] using ih

theorem strIn_append (a n b : String) : strIn n (a ++ n ++ b) = true := by
  show isSubOf n.data (a ++ n ++ b).data = true
  simp only [String.data_append]
  exact isSubOf_append n.data a.data b.data

/-! ### Helper lemmas about the embedded store -/

theorem create_rows (db : DB) : (create_query_table db).rows = db.rows := by
  cases db with
  | mk q => cases q <;> rfl

theorem create_queries_eq (db : DB) :
    create_query_table db = ⟨some db.rows⟩ := by
  cases db with
  | mk q => cases q <;> rfl

theorem create_create (db : DB) :
    create_query_table (create_query_table db) = create_query_table db := by
  cases db with
  | mk q => cases q <;> rfl

theorem save_query_error_state {P : Type} (S : QuerySpec P) (db : DB)
    (ctx : QueryContext P) (e : String)
    (h : (save_query S db ctx).2 = .error e) :
    (save_query S db ctx).1 = create_query_table db := by
  unfold save_query at h ⊢
  cases hs : S.ser ctx.payload with
  | none => simp [hs]
  | some payload =>
    simp only [hs] at h ⊢
    cases hex : execStmt (save_query_stmt ctx.version)
        (create_query_table db).rows ctx.version payload
        S.aggregate_type ctx.aggregate_id S.query_type with
    | error e' => simp [hex]
    | ok t2 => simp [hex] at h

theorem collect_rows_of_mem_error {A : Type}
    (res : List (Except String A)) (m : String)
    (h : Except.error m ∈ res) : collect_rows res = none := by
  induction res with
  | nil => cases h
  | cons x rest ih =>
    cases x with
    | error e => rfl
    | ok v =>
      have : Except.error m ∈ rest := by
        cases h with
        | tail _ hm => exact hm
      simp [collect_rows, ih this]

theorem collect_rows_isSome_all_ok {A : Type}
    (res : List (Except String A)) (l : List A)
    (h : collect_rows res = some l) :
    ∀ x ∈ res, ∃ v, x = Except.ok v := by
  induction res generalizing l with
  | nil => intro x hx; cases hx
  | cons y rest ih =>
    intro x hx
    cases y with
    | error e => simp [collect_rows] at h
    | ok v =>
      simp only [collect_rows] at h
      cases hcr : collect_rows rest with
      | none => rw [hcr] at h; cases h
      | some l' =>
        cases hx with
        | head => exact ⟨v, rfl⟩
        | tail _ hm => exact ih l' hcr x hm

theorem collect_rows_map_ok {A : Type} (l : List A) :
    collect_rows (l.map Except.ok) = some l := by
  induction l with
  | nil => rfl
  | cons x t ih => simp [collect_rows, ih]

theorem collect_rows_map_okf {A B : Type} (g : B → A) (l : List B) :
    collect_rows (l.map fun x => Except.ok (g x)) = some (l.map g) := by
  induction l with
  | nil => rfl
  | cons x t ih => simp [collect_rows, ih]

theorem foldl_push_append {E : Type} (state events : List E) :
    events.foldl (fun acc e => acc ++ [e]) state = state ++ events := by
  induction events generalizing state with
  | nil => simp
  | cons x t ih => simp [List.foldl_cons, ih]

theorem save_query_exec_eq {P : Type} (S : QuerySpec P) (db : DB)
    (ctx : QueryContext P) (s : String) (hs : S.ser ctx.payload = some s) :
    save_query S db ctx =
      finishSave (create_query_table db) ctx.aggregate_id
        (execStmt (save_query_stmt ctx.version) db.rows ctx.version s
          S.aggregate_type ctx.aggregate_id S.query_type) := by
  simp only [save_query, hs, create_rows]
  cases execStmt (save_query_stmt ctx.version) db.rows ctx.version s
      S.aggregate_type ctx.aggregate_id S.query_type <;> rfl

theorem updateQuery_no_match (t : Table) (version : Int)
    (payload at_ aid qt : String)
    (h : t.any (matchesKey at_ aid qt) = false) :
    updateQuery t version payload at_ aid qt = .ok t := by
  unfold updateQuery
  rw [h, Bool.and_false, if_neg (by simp)]
  have hall := List.any_eq_false.mp h
  have hcong : ∀ r ∈ t,
      (if matchesKey at_ aid qt r
       then { r with version := version, payload := payload } else r) = r :=
    fun r hr => by simp [Bool.eq_false_iff.mpr (hall r hr)]
  rw [List.map_congr_left hcong]
  simp

/-! ### The claims -/

/-- C1: `save_query` performs an INSERT of a new row when
`context.version == 1` and, for any other version, an UPDATE keyed by
(aggregate_type, aggregate_id, query_type). -/
theorem save_query_insert_update_boundary {P : Type} (S : QuerySpec P)
    (db : DB) (ctx : QueryContext P) (s : String)
    (hs : S.ser ctx.payload = some s) :
    (ctx.version = 1 →
      save_query S db ctx =
        finishSave (create_query_table db) ctx.aggregate_id
          (insertQuery db.rows ctx.version s
            S.aggregate_type ctx.aggregate_id S.query_type)) ∧
    (ctx.version ≠ 1 →
      save_query S db ctx =
        finishSave (create_query_table db) ctx.aggregate_id
          (updateQuery db.rows ctx.version s
            S.aggregate_type ctx.aggregate_id S.query_type)) := by
  constructor
  · intro hv
    have hstmt : save_query_stmt ctx.version = .insertStmt := by
      simp [save_query_stmt, hv]
    rw [save_query_exec_eq S db ctx s hs, hstmt]
    rfl
  · intro hv
    have hstmt : save_query_stmt ctx.version = .updateStmt := by
      simp [save_query_stmt, hv]
    rw [save_query_exec_eq S db ctx s hs, hstmt]
    rfl

theorem save_query_insert_update_boundary_witness :
    S0.ser "p" = some "p" ∧
    save_query S0 ⟨some []⟩ ⟨"a1", 1, "p"⟩ =
      finishSave (create_query_table ⟨some []⟩) "a1"
        (insertQuery [] 1 "p" "myAgg" "a1" "myQuery") ∧
    save_query S0 ⟨some []⟩ ⟨"a1", 2, "p"⟩ =
      finishSave (create_query_table ⟨some []⟩) "a1"
        (updateQuery [] 2 "p" "myAgg" "a1" "myQuery") :=
  ⟨rfl,
   (save_query_insert_update_boundary S0 ⟨some []⟩ ⟨"a1", 1, "p"⟩ "p" rfl).1
     rfl,
   (save_query_insert_update_boundary S0 ⟨some []⟩ ⟨"a1", 2, "p"⟩ "p" rfl).2
     (by decide)⟩

/-- C2 counterexample: on an empty table, saving a context with
version 2 (no existing row for the key) returns `Ok` and leaves the
table unchanged — it does not return an error as the claim states. -/
theorem save_query_missing_row_cex :
    (save_query S0 ⟨some []⟩ ⟨"a1", 2, "p"⟩).2.isOk = true ∧
    (save_query S0 ⟨some []⟩ ⟨"a1", 2, "p"⟩).1 = ⟨some []⟩ ∧
    ∀ e, (save_query S0 ⟨some []⟩ ⟨"a1", 2, "p"⟩).2 ≠ Except.error e := by
  refine ⟨rfl, rfl, fun e h => ?_⟩
  rw [show (save_query S0 ⟨some []⟩ ⟨"a1", 2, "p"⟩).2 = Except.ok ()
    from rfl] at h
  exact Except.noConfusion h

/-- C2 amended: with no existing row for the key and a version other
than 1, `save_query` runs an UPDATE that matches nothing: it returns
`Ok` without inserting and leaves the table rows unchanged. -/
theorem save_query_missing_row_noop {P : Type} (S : QuerySpec P)
    (db : DB) (ctx : QueryContext P) (s : String)
    (hv : ctx.version ≠ 1) (hs : S.ser ctx.payload = some s)
    (h : db.rows.any
      (matchesKey S.aggregate_type ctx.aggregate_id S.query_type) = false) :
    save_query S db ctx = (create_query_table db, Except.ok ()) := by
  have hstmt : save_query_stmt ctx.version = .updateStmt := by
    simp [save_query_stmt, hv]
  rw [save_query_exec_eq S db ctx s hs, hstmt]
  show finishSave (create_query_table db) ctx.aggregate_id
    (updateQuery db.rows ctx.version s
      S.aggregate_type ctx.aggregate_id S.query_type) = _
  rw [updateQuery_no_match _ _ _ _ _ _ h, create_queries_eq]
  rfl

theorem save_query_missing_row_noop_witness :
    ((2 : Int) ≠ 1 ∧ S0.ser "p" = some "p" ∧
      (DB.mk (some [])).rows.any
        (matchesKey S0.aggregate_type "a1" S0.query_type) = false) ∧
    save_query S0 ⟨some []⟩ ⟨"a1", 2, "p"⟩ =
      (create_query_table ⟨some []⟩, Except.ok ()) :=
  ⟨⟨by decide, rfl, rfl⟩,
   save_query_missing_row_noop S0 ⟨some []⟩ ⟨"a1", 2, "p"⟩ "p"
     (by decide) rfl rfl⟩

/-- C3: when no row exists for (aggregate_type, aggregate_id,
query_type), `load_query` returns `Ok` with version 0 and the query
type's default payload — absence is never reported as an error. -/
theorem load_query_absent_default {P : Type} (S : QuerySpec P) (db : DB)
    (aid : String)
    (h : db.rows.any (matchesKey S.aggregate_type aid S.query_type) = false) :
    (load_query S db aid).2 = .ok ⟨aid, 0, S.dflt⟩ := by
  have hfil : db.rows.filter
      (matchesKey S.aggregate_type aid S.query_type) = [] := by
    rw [List.filter_eq_nil_iff]
    exact fun a ha => List.any_eq_false.mp h a ha
  simp [load_query, selectQuery, create_rows, hfil,
    load_query_from_rows, collect_rows]

theorem load_query_absent_default_witness :
    (DB.mk (some [])).rows.any
      (matchesKey S0.aggregate_type "a1" S0.query_type) = false ∧
    (load_query S0 ⟨some []⟩ "a1").2 = .ok ⟨"a1", 0, ""⟩ :=
  ⟨rfl, load_query_absent_default S0 ⟨some []⟩ "a1" rfl⟩

/-- C5: schema creation is invoked at the start of every `save_query`
and `load_query` call and is idempotent: creating the table over an
existing one is the identity, so pre-creating the schema changes
nothing about either operation, and both operations leave the table
existing. -/
theorem schema_creation_idempotent {P : Type} (S : QuerySpec P) :
    (∀ t : Table, create_query_table ⟨some t⟩ = ⟨some t⟩) ∧
    (∀ db, create_query_table (create_query_table db) =
      create_query_table db) ∧
    (∀ db (ctx : QueryContext P),
      save_query S (create_query_table db) ctx = save_query S db ctx) ∧
    (∀ db aid,
      load_query S (create_query_table db) aid = load_query S db aid) ∧
    (∀ db (ctx : QueryContext P),
      ((save_query S db ctx).1.queries).isSome = true) ∧
    (∀ db aid, ((load_query S db aid).1.queries).isSome = true) := by
  refine ⟨fun t => rfl, create_create, fun db ctx => ?_, fun db aid => ?_,
    fun db ctx => ?_, fun db aid => ?_⟩
  · simp only [save_query, create_create]
  · simp only [load_query, create_create]
  · cases hs : S.ser ctx.payload with
    | none => simp [save_query, hs, create_queries_eq]
    | some s =>
      rw [save_query_exec_eq S db ctx s hs]
      cases execStmt (save_query_stmt ctx.version) db.rows ctx.version s
          S.aggregate_type ctx.aggregate_id S.query_type with
      | error e => simp [finishSave, create_queries_eq]
      | ok t2 => simp [finishSave]
  · simp [load_query, create_queries_eq]

/-- C6: when payload serialization fails, `save_query` returns an error
and performs no write: the rows of the queries table are exactly as
they were before the call. -/
theorem save_query_ser_failure_no_write {P : Type} (S : QuerySpec P)
    (db : DB) (ctx : QueryContext P)
    (h : S.ser ctx.payload = none) :
    (save_query S db ctx).2 =
      .error (serErrMsg S.query_type ctx.aggregate_id "serde") ∧
    (save_query S db ctx).1.rows = db.rows := by
  unfold save_query
  simp [h, create_rows]

theorem save_query_ser_failure_no_write_witness :
    Sfail.ser "p" = none ∧
    ((save_query Sfail ⟨some []⟩ ⟨"a1", 1, "p"⟩).2 =
      .error (serErrMsg "myQuery" "a1" "serde") ∧
     (save_query Sfail ⟨some []⟩ ⟨"a1", 1, "p"⟩).1.rows =
      (DB.mk (some [])).rows) :=
  ⟨rfl, save_query_ser_failure_no_write Sfail ⟨some []⟩ ⟨"a1", 1, "p"⟩ rfl⟩

/-- C9: `CustomDispatcher::dispatch` appends each event of the batch,
in batch order, exactly once to the end of the shared list, leaves the
previously recorded events unchanged, and always returns `Ok`. -/
theorem custom_dispatch_appends {E : Type} (state events : List E) :
    customDispatch state events = (state ++ events, Except.ok ()) := by
  unfold customDispatch
  rw [foldl_push_append]

/-- C10: in `load_query`, every fetched row result is `unwrap()`ed: a
row-level retrieval or conversion failure makes the call panic rather
than return an `Err`, and the call returns normally only when every row
result maps successfully. -/
theorem load_query_row_unwrap {P : Type} (S : QuerySpec P) (aid : String) :
    (∀ res m, Except.error m ∈ res →
      load_query_from_rows S aid res = .panicked) ∧
    (∀ res, load_query_from_rows S aid res ≠ .panicked →
      ∀ x ∈ res, ∃ v, x = Except.ok v) := by
  constructor
  · intro res m hm
    unfold load_query_from_rows
    rw [collect_rows_of_mem_error res m hm]
  · intro res hnp x hx
    unfold load_query_from_rows at hnp
    cases hcr : collect_rows res with
    | none => rw [hcr] at hnp; exact absurd rfl hnp
    | some l => exact collect_rows_isSome_all_ok res l hcr x hx

theorem load_query_row_unwrap_witness :
    Except.error "boom" ∈
      ([Except.error "boom"] : List (Except String (Int × String))) ∧
    load_query_from_rows S0 "a1"
      ([Except.error "boom"] : List (Except String (Int × String))) =
      .panicked :=
  ⟨List.mem_singleton.mpr rfl,
   (load_query_row_unwrap S0 "a1").1 [Except.error "boom"] "boom"
     (List.mem_singleton.mpr rfl)⟩

theorem matchesKey_update (at_ aid qt : String) (v : Int) (p : String)
    (r : Row) :
    matchesKey at_ aid qt { r with version := v, payload := p } =
      matchesKey at_ aid qt r := rfl

theorem insertQuery_match_err (t : Table) (version : Int)
    (payload at_ aid qt : String)
    (h : t.any (matchesKey at_ aid qt) = true) :
    insertQuery t version payload at_ aid qt = .error uniqueErr := by
  unfold insertQuery
  rw [h]
  simp

theorem insertQuery_no_match (t : Table) (version : Int)
    (payload at_ aid qt : String)
    (h : t.any (matchesKey at_ aid qt) = false) (hv : ¬ version < 0) :
    insertQuery t version payload at_ aid qt =
      .ok (t ++ [⟨at_, aid, qt, version, payload⟩]) := by
  unfold insertQuery
  rw [h]
  simp [hv]

theorem updateQuery_nonneg (t : Table) (version : Int)
    (payload at_ aid qt : String) (hv : ¬ version < 0) :
    updateQuery t version payload at_ aid qt =
      .ok (t.map fun r => if matchesKey at_ aid qt r
        then { r with version := version, payload := payload } else r) := by
  unfold updateQuery
  simp [hv]

theorem load_query_eq_rows {P : Type} (S : QuerySpec P) (db : DB)
    (aid : String) :
    load_query S db aid = (create_query_table db,
      load_query_from_rows S aid
        ((selectQuery db.rows S.aggregate_type aid S.query_type).map
          Except.ok)) := by
  simp only [load_query, create_rows]

/-- C4 counterexample: on an empty table, `save_query` of a context
with version 2 succeeds (its UPDATE matches nothing), but the
subsequent `load_query` returns the synthesized default context
(version 0, default payload) rather than the saved payload and
version. -/
theorem save_load_roundtrip_cex :
    (save_query S0 ⟨some []⟩ ⟨"a1", 2, "p"⟩).2.isOk = true ∧
    (load_query S0 (save_query S0 ⟨some []⟩ ⟨"a1", 2, "p"⟩).1 "a1").2 =
      .ok ⟨"a1", 0, ""⟩ ∧
    (load_query S0 (save_query S0 ⟨some []⟩ ⟨"a1", 2, "p"⟩).1 "a1").2 ≠
      .ok ⟨"a1", 2, "p"⟩ := by
  refine ⟨rfl, rfl, ?_⟩
  decide

/-- C4 amended: when `save_query(ctx)` succeeds after actually
writing — that is, `ctx.version = 1` (insert) or a row already existed
for the key (update) — and deserialization inverts serialization on the
payload, a subsequent `load_query(ctx.aggregate_id)` returns a context
with payload equal to `ctx.payload` and version equal to
`ctx.version`. -/
theorem save_load_roundtrip {P : Type} (S : QuerySpec P) (db : DB)
    (ctx : QueryContext P) (s : String)
    (hs : S.ser ctx.payload = some s)
    (hd : S.deser s = some ctx.payload)
    (hok : (save_query S db ctx).2 = .ok ())
    (hw : ctx.version = 1 ∨ db.rows.any
      (matchesKey S.aggregate_type ctx.aggregate_id S.query_type) = true) :
    (load_query S (save_query S db ctx).1 ctx.aggregate_id).2 =
      .ok ⟨ctx.aggregate_id, ctx.version, ctx.payload⟩ := by
  have hsq := save_query_exec_eq S db ctx s hs
  by_cases hv : ctx.version = 1
  · have hstmt : save_query_stmt ctx.version = .insertStmt := by
      simp [save_query_stmt, hv]
    rw [hstmt] at hsq
    cases hmatch : db.rows.any
        (matchesKey S.aggregate_type ctx.aggregate_id S.query_type) with
    | true =>
      rw [show execStmt Stmt.insertStmt db.rows ctx.version s
            S.aggregate_type ctx.aggregate_id S.query_type =
          insertQuery db.rows ctx.version s
            S.aggregate_type ctx.aggregate_id S.query_type from rfl,
        insertQuery_match_err _ _ _ _ _ _ hmatch] at hsq
      rw [hsq] at hok
      simp [finishSave] at hok
    | false =>
      have hnneg : ¬ ctx.version < 0 := by rw [hv]; decide
      rw [show execStmt Stmt.insertStmt db.rows ctx.version s
            S.aggregate_type ctx.aggregate_id S.query_type =
          insertQuery db.rows ctx.version s
            S.aggregate_type ctx.aggregate_id S.query_type from rfl,
        insertQuery_no_match _ _ _ _ _ _ hmatch hnneg] at hsq
      have h1 : (save_query S db ctx).1 = ⟨some (db.rows ++
          [⟨S.aggregate_type, ctx.aggregate_id, S.query_type,
            ctx.version, s⟩])⟩ := by
        rw [hsq]
        rfl
      have hfilnil : db.rows.filter
          (matchesKey S.aggregate_type ctx.aggregate_id S.query_type)
          = [] := by
        rw [List.filter_eq_nil_iff]
        exact fun a ha => List.any_eq_false.mp hmatch a ha
      simp only [DB.rows] at hfilnil
      rw [h1, load_query_eq_rows]
      simp [selectQuery, DB.rows, List.filter_append, hfilnil,
        matchesKey, load_query_from_rows, collect_rows, hd]
  · have hmatch := hw.resolve_left hv
    have hstmt : save_query_stmt ctx.version = .updateStmt := by
      simp [save_query_stmt, hv]
    rw [hstmt, show execStmt Stmt.updateStmt db.rows ctx.version s
          S.aggregate_type ctx.aggregate_id S.query_type =
        updateQuery db.rows ctx.version s
          S.aggregate_type ctx.aggregate_id S.query_type from rfl] at hsq
    by_cases hneg : ctx.version < 0
    · exfalso
      have hupd : updateQuery db.rows ctx.version s
          S.aggregate_type ctx.aggregate_id S.query_type =
          .error checkErr := by
        unfold updateQuery
        rw [hmatch]
        simp [hneg]
      rw [hupd] at hsq
      rw [hsq] at hok
      simp [finishSave] at hok
    · rw [updateQuery_nonneg _ _ _ _ _ _ hneg] at hsq
      have h1 : (save_query S db ctx).1 = ⟨some (db.rows.map fun r =>
          if matchesKey S.aggregate_type ctx.aggregate_id S.query_type r
          then { r with version := ctx.version, payload := s }
          else r)⟩ := by
        rw [hsq]
        rfl
      have hcomm : (db.rows.map fun r =>
          if matchesKey S.aggregate_type ctx.aggregate_id S.query_type r
          then { r with version := ctx.version, payload := s }
          else r).filter
            (matchesKey S.aggregate_type ctx.aggregate_id S.query_type) =
          (db.rows.filter
            (matchesKey S.aggregate_type ctx.aggregate_id S.query_type)).map
            (fun r =>
              if matchesKey S.aggregate_type ctx.aggregate_id S.query_type r
              then { r with version := ctx.version, payload := s }
              else r) := by
        rw [List.filter_map]
        congr 1
        apply List.filter_congr
        intro r _
        by_cases hk : matchesKey S.aggregate_type ctx.aggregate_id
            S.query_type r = true
        · simp [Function.comp, hk, matchesKey_update]
        · simp [Function.comp, Bool.eq_false_iff.mpr hk]
      obtain ⟨r0, rest, hfe⟩ : ∃ r0 rest, db.rows.filter
          (matchesKey S.aggregate_type ctx.aggregate_id S.query_type) =
          r0 :: rest := by
        cases hfe : db.rows.filter
            (matchesKey S.aggregate_type ctx.aggregate_id S.query_type) with
        | nil =>
          exfalso
          obtain ⟨x, hx, hpx⟩ := List.any_eq_true.mp hmatch
          exact absurd hpx (by
            simpa using List.filter_eq_nil_iff.mp hfe x hx)
        | cons a b => exact ⟨a, b, rfl⟩
      have hr0 : matchesKey S.aggregate_type ctx.aggregate_id
          S.query_type r0 = true := by
        have hmem : r0 ∈ db.rows.filter
            (matchesKey S.aggregate_type ctx.aggregate_id S.query_type) := by
          rw [hfe]
          exact List.mem_cons_self _ _
        exact (List.mem_filter.mp hmem).2
      simp only [DB.rows] at hcomm hfe
      rw [h1, load_query_eq_rows]
      simp [selectQuery, DB.rows, hcomm, hfe, hr0,
        load_query_from_rows, collect_rows, collect_rows_map_ok,
        Function.comp_def, collect_rows_map_okf, hd]

theorem save_load_roundtrip_witness :
    (S0.ser "p" = some "p" ∧ S0.deser "p" = some "p" ∧
     (save_query S0 ⟨some []⟩ ⟨"a1", 1, "p"⟩).2 = .ok () ∧
     ((1 : Int) = 1 ∨ (DB.mk (some [])).rows.any
       (matchesKey S0.aggregate_type "a1" S0.query_type) = true)) ∧
    (load_query S0 (save_query S0 ⟨some []⟩ ⟨"a1", 1, "p"⟩).1 "a1").2 =
      .ok ⟨"a1", 1, "p"⟩ :=
  ⟨⟨rfl, rfl, rfl, Or.inl rfl⟩,
   save_load_roundtrip S0 ⟨some []⟩ ⟨"a1", 1, "p"⟩ "p" rfl rfl rfl
     (Or.inl rfl)⟩

/-- C8: the SQLite `QueryStore` implements the dispatcher interface by
delegating to `dispatch_events`, which loads the current query context,
folds the batch of events into the payload, increments the version by
one, and saves; when any step fails the table rows are exactly as
before the call, so a failure partway never leaves a query row at an
inconsistent version. -/
theorem dispatch_fold_increment_save {P E : Type} (S : QuerySpec P)
    (upd : P → E → P) (db : DB) (aid : String) (events : List E) :
    dispatch S upd db aid events = dispatch_events S upd db aid events ∧
    (∀ ctx, (load_query S db aid).2 = .ok ctx →
      dispatch S upd db aid events =
        liftResult (save_query S (load_query S db aid).1
          ⟨ctx.aggregate_id, ctx.version + 1,
            events.foldl upd ctx.payload⟩)) ∧
    (∀ e, (dispatch S upd db aid events).2 = .err e →
      (dispatch S upd db aid events).1.rows = db.rows) ∧
    ((dispatch S upd db aid events).2 = .panicked →
      (dispatch S upd db aid events).1.rows = db.rows) := by
  have hsplit : ∀ ctx, (load_query S db aid).2 = .ok ctx →
      dispatch S upd db aid events =
        liftResult (save_query S (load_query S db aid).1
          ⟨ctx.aggregate_id, ctx.version + 1,
            events.foldl upd ctx.payload⟩) := by
    intro ctx hctx
    show dispatch_events S upd db aid events = _
    unfold dispatch_events
    have hpair : load_query S db aid =
        ((load_query S db aid).1, .ok ctx) := by
      rw [← hctx]
    rw [hpair]
  refine ⟨rfl, hsplit, ?_, ?_⟩
  · intro e he
    cases hout : (load_query S db aid).2 with
    | ok ctx =>
      rw [hsplit ctx hout] at he ⊢
      cases hsv : save_query S (load_query S db aid).1
          ⟨ctx.aggregate_id, ctx.version + 1,
            events.foldl upd ctx.payload⟩ with
      | mk d r =>
        cases r with
        | ok u =>
          rw [hsv] at he
          simp [liftResult] at he
        | error m =>
          have h2 : (save_query S (load_query S db aid).1
              ⟨ctx.aggregate_id, ctx.version + 1,
                events.foldl upd ctx.payload⟩).2 = .error m := by
            rw [hsv]
          have h1 := save_query_error_state S (load_query S db aid).1
            ⟨ctx.aggregate_id, ctx.version + 1,
              events.foldl upd ctx.payload⟩ m h2
          rw [hsv] at h1
          simp only [liftResult]
          show d.rows = db.rows
          have hd : d = create_query_table (load_query S db aid).1 := h1
          rw [hd, load_query_eq_rows]
          simp [create_rows]
    | err m =>
      have hq : dispatch S upd db aid events =
          ((load_query S db aid).1, .err m) := by
        show dispatch_events S upd db aid events = _
        unfold dispatch_events
        have hpair : load_query S db aid =
            ((load_query S db aid).1, .err m) := by
          rw [← hout]
        rw [hpair]
      rw [hq, load_query_eq_rows]
      simp [create_rows]
    | panicked =>
      have hq : dispatch S upd db aid events =
          ((load_query S db aid).1, .panicked) := by
        show dispatch_events S upd db aid events = _
        unfold dispatch_events
        have hpair : load_query S db aid =
            ((load_query S db aid).1, .panicked) := by
          rw [← hout]
        rw [hpair]
      rw [hq] at he
      simp at he
  · intro he
    cases hout : (load_query S db aid).2 with
    | ok ctx =>
      rw [hsplit ctx hout] at he ⊢
      cases hsv : save_query S (load_query S db aid).1
          ⟨ctx.aggregate_id, ctx.version + 1,
            events.foldl upd ctx.payload⟩ with
      | mk d r =>
        cases r with
        | ok u =>
          rw [hsv] at he
          simp [liftResult] at he
        | error m =>
          rw [hsv] at he
          simp [liftResult] at he
    | err m =>
      have hq : dispatch S upd db aid events =
          ((load_query S db aid).1, .err m) := by
        show dispatch_events S upd db aid events = _
        unfold dispatch_events
        have hpair : load_query S db aid =
            ((load_query S db aid).1, .err m) := by
          rw [← hout]
        rw [hpair]
      rw [hq] at he
      simp at he
    | panicked =>
      have hq : dispatch S upd db aid events =
          ((load_query S db aid).1, .panicked) := by
        show dispatch_events S upd db aid events = _
        unfold dispatch_events
        have hpair : load_query S db aid =
            ((load_query S db aid).1, .panicked) := by
          rw [← hout]
        rw [hpair]
      rw [hq, load_query_eq_rows]
      simp [create_rows]

theorem dispatch_fold_increment_save_witness :
    (load_query S0 ⟨none⟩ "a1").2 = .ok ⟨"a1", 0, ""⟩ ∧
    dispatch S0 (fun p e => p ++ e) ⟨none⟩ "a1" ["x", "y"] =
      liftResult (save_query S0 (load_query S0 ⟨none⟩ "a1").1
        ⟨"a1", 0 + 1, ["x", "y"].foldl (fun p e => p ++ e) ""⟩) :=
  ⟨rfl,
   (dispatch_fold_increment_save S0 (fun p e => p ++ e) ⟨none⟩ "a1"
     ["x", "y"]).2.1 ⟨"a1", 0, ""⟩ rfl⟩
